import Mathlib

/-!
Shallow embedding of the `gym_solo` observation/reward composition core and
its termination/environment collaborators, with theorems settling the
specification claims.

Sources embedded directly (authoritative code):
  * `gym_solo/core/obs.py`     — `Observation`, `ObservationFactory`
  * `gym_solo/core/rewards.py` — `Reward`, `_WeightedReward`, `RewardFactory`

Components whose implementation files are not in the source tree (only their
unit tests are) are modelled from the specification text and are marked
`Modelled from the spec:` on their definitions:
  * `gym_solo/core/termination.py`   — `TimeBasedTermination`, `PerpetualTermination`
  * `gym_solo/envs/solo8_base_env.py` — `Solo8BaseEnv` construction and `_seed`

Modelling conventions:
  * Python objects become Lean structures; in-place mutation becomes explicit
    state passing (a method that mutates `self` and/or an argument returns the
    updated values).
  * A Python method that may `raise ValueError(msg)` returns `Except String α`
    (or carries an `Option String` error slot next to the mutated state when
    the mutations performed before the raise must stay visible).
  * `numpy` float vectors become `List Int` (only their lengths and concrete
    entries matter for the claims) and scalar rewards/weights become `Rat`,
    which represents every concrete value the claims mention exactly.
  * An `Observation`'s `compute()` and `labels`/`observation_space` properties
    are embedded as fields holding the value the live object would report;
    the PyBullet client handle is an opaque `Nat`.
-/

/-- A gym `spaces.Box`: per-dimension lower and upper bounds
(`spaces.Box(low=..., high=...)` in `obs.py`). -/
structure Box where
  low : List Int
  high : List Int
deriving DecidableEq, Repr

/-- Embedding of `obs.Observation` (`obs.py` lines 16-92): `labels`,
`observation_space` and the value `compute()` reports, plus the `_client`
attribute that the `client` property setter assigns (`None` before any
factory has bound it). -/
structure Observation where
  labels : List String
  observation_space : Box
  compute : List Int
  _client : Option Nat
deriving DecidableEq, Repr

/-- The `Observation.client` property getter (`obs.py` lines 70-82): raises
`ValueError` when the client has not been set yet. -/
def Observation.client (o : Observation) : Except String Nat :=
  match o._client with
  | some c => Except.ok c
  | none => Except.error "PyBullet client needs to be set"

/-- Embedding of `obs.ObservationFactory` state (`obs.py` lines 95-105):
the backend client, the insertion-ordered registration list
`_observations`, and the cached combined space `_obs_space`
(`None` until first generated). -/
structure ObservationFactory where
  _client : Nat
  _observations : List Observation
  _obs_space : Option Box
deriving DecidableEq, Repr

/-- `ObservationFactory.__init__` (`obs.py` lines 96-105). -/
def ObservationFactory.new (client : Nat) : ObservationFactory :=
  { _client := client, _observations := [], _obs_space := none }

/-- `ObservationFactory.register_observation` (`obs.py` lines 107-126).
Python mutates both `obs` (its `client` is set first) and `self`
(the append), and may raise; the embedding returns the mutated
observation, the factory state after the call, and `some msg` when the
call raised `ValueError(msg)`.  Note the source never touches
`self._obs_space` here. -/
def ObservationFactory.register_observation (f : ObservationFactory)
    (obs : Observation) : Observation × ObservationFactory × Option String :=
  let obs := { obs with _client := some f._client }
  let lbl_len := obs.labels.length
  let obs_space_len := obs.observation_space.low.length
  let obs_len := obs.compute.length
  if lbl_len ≠ obs_space_len then
    (obs, f, some ("Labels have length " ++ toString lbl_len ++
      " != obs space len " ++ toString obs_space_len))
  else if lbl_len ≠ obs_len then
    (obs, f, some ("Labels have length " ++ toString lbl_len ++
      " != obs len " ++ toString obs_len))
  else
    (obs, { f with _observations := f._observations ++ [obs] }, none)

/-- `ObservationFactory.get_obs` (`obs.py` lines 128-149): raises on an
empty registry, otherwise concatenates every registered observation's
`compute()` output and, in lock-step, their label lists. -/
def ObservationFactory.get_obs (f : ObservationFactory) :
    Except String (List Int × List String) :=
  if f._observations.isEmpty then
    Except.error "Need to register at least one observation instance"
  else
    Except.ok ((f._observations.map (fun o => o.compute)).flatten,
      (f._observations.map (fun o => o.labels)).flatten)

/-- The space-construction loop of `get_observation_space`
(`obs.py` lines 171-176): extend `lower`/`upper` with every registered
observation's bounds, in registration order. -/
def ObservationFactory.build_space (f : ObservationFactory) : Box :=
  { low := (f._observations.map (fun o => o.observation_space.low)).flatten,
    high := (f._observations.map (fun o => o.observation_space.high)).flatten }

/-- `ObservationFactory.get_observation_space` (`obs.py` lines 151-177):
raises on an empty registry; returns the cached `_obs_space` when one
exists and `generate` is false; otherwise rebuilds and replaces the
cache.  Returns the space together with the factory state after the
call. -/
def ObservationFactory.get_observation_space (f : ObservationFactory)
    (generate : Bool) : Except String (Box × ObservationFactory) :=
  if f._observations.isEmpty then
    Except.error "Can not generate an empty observation space"
  else
    match f._obs_space with
    | some sp =>
      if generate then
        let sp' := f.build_space
        Except.ok (sp', { f with _obs_space := some sp' })
      else
        Except.ok (sp, f)
    | none =>
      let sp' := f.build_space
      Except.ok (sp', { f with _obs_space := some sp' })

/-- Embedding of `rewards.Reward` (`rewards.py` lines 11-19): the only
attribute is the scalar `compute()` reports. -/
structure Reward where
  compute : Rat
deriving DecidableEq, Repr

/-- Embedding of the `rewards._WeightedReward` dataclass
(`rewards.py` lines 22-25). -/
structure _WeightedReward where
  reward : Reward
  weight : Rat
deriving DecidableEq, Repr

/-- Embedding of `rewards.RewardFactory` state (`rewards.py` lines 28-44). -/
structure RewardFactory where
  _rewards : List _WeightedReward
deriving DecidableEq, Repr

/-- `RewardFactory.__init__` (`rewards.py` lines 42-44). -/
def RewardFactory.new : RewardFactory := { _rewards := [] }

/-- `RewardFactory.register_reward` (`rewards.py` lines 46-56): append a
weighted-reward pair; the weight is unconstrained. -/
def RewardFactory.register_reward (f : RewardFactory) (weight : Rat)
    (reward : Reward) : RewardFactory :=
  { f with _rewards := f._rewards ++ [{ reward := reward, weight := weight }] }

/-- `RewardFactory.get_reward` (`rewards.py` lines 58-72): raises on an
empty registry, otherwise `sum(wr.weight * wr.reward.compute() for wr in
self._rewards)`. -/
def RewardFactory.get_reward (f : RewardFactory) : Except String Rat :=
  if f._rewards.isEmpty then
    Except.error "Need to register at least one reward instance"
  else
    Except.ok ((f._rewards.map (fun wr => wr.weight * wr.reward.compute)).sum)

/-- Modelled from the spec: `gym_solo/core/termination.py` is not in the
source tree (only `test_termination_conditions.py` is).  Per spec §4.1 and
the tests, a `TimeBasedTermination` holds a configured `max_step_delta`
and an internal counter `step_delta` starting at 0. -/
structure TimeBasedTermination where
  max_step_delta : Nat
  step_delta : Nat
deriving DecidableEq, Repr

/-- Modelled from the spec: `TimeBasedTermination(max_step_delta)`
constructs with `step_delta == 0` (test_attributes). -/
def TimeBasedTermination.new (m : Nat) : TimeBasedTermination :=
  { max_step_delta := m, step_delta := 0 }

/-- Modelled from the spec: `reset()` zeroes the internal step counter
(spec §4.1). -/
def TimeBasedTermination.reset (t : TimeBasedTermination) :
    TimeBasedTermination :=
  { t with step_delta := 0 }

/-- Modelled from the spec: `is_terminated()` "increments the internal step
counter by one as a side effect, then returns whether the counter now
exceeds the configured maximum" (spec §4.1).  Returns the boolean and
the successor state. -/
def TimeBasedTermination.is_terminated (t : TimeBasedTermination) :
    Bool × TimeBasedTermination :=
  let t' := { t with step_delta := t.step_delta + 1 }
  (decide (t.max_step_delta < t'.step_delta), t')

/-- State of a `TimeBasedTermination` after `n` successive
`is_terminated()` calls. -/
def TimeBasedTermination.afterCalls (t : TimeBasedTermination) :
    Nat → TimeBasedTermination
  | 0 => t
  | n + 1 => ((t.afterCalls n).is_terminated).2

/-- Result of the `(n+1)`-th `is_terminated()` call on a
`TimeBasedTermination` that starts at state `t` (zero-indexed `n`). -/
def TimeBasedTermination.callResult (t : TimeBasedTermination) (n : Nat) :
    Bool :=
  ((t.afterCalls n).is_terminated).1

/-- Modelled from the spec: `PerpetualTermination` (spec §4.1, "always
returns false and never terminates regardless of call count"); it carries
no state of its own. -/
structure PerpetualTermination where
deriving DecidableEq, Repr

/-- Modelled from the spec: `PerpetualTermination.is_terminated()` always
returns false and leaves the (empty) state unchanged. -/
def PerpetualTermination.is_terminated (t : PerpetualTermination) :
    Bool × PerpetualTermination :=
  (false, t)

/-- State of a `PerpetualTermination` after `n` successive
`is_terminated()` calls. -/
def PerpetualTermination.afterCalls (t : PerpetualTermination) :
    Nat → PerpetualTermination
  | 0 => t
  | n + 1 => ((t.afterCalls n).is_terminated).2

/-- Result of the `(n+1)`-th `is_terminated()` call on a
`PerpetualTermination`. -/
def PerpetualTermination.callResult (t : PerpetualTermination) (n : Nat) :
    Bool :=
  ((t.afterCalls n).is_terminated).1

/-- Modelled from the spec: observable lifecycle events of
`Solo8BaseEnv.__init__` (spec §4.4) — the collaborator hooks
`load_bodies()` and `reset(from_init)` and, for contrast, a `step` call. -/
inductive LifeEvent where
  | loadBodies : LifeEvent
  | resetEv : Bool → LifeEvent
  | stepEv : LifeEvent
deriving DecidableEq, Repr

/-- Modelled from the spec: a concrete variant of the abstract base
environment is characterised by which of the two mandatory abstract
operations it supplies (spec §4.4, §9: "each variant must implement the
full required operation set, enforced at construction time").
The abstract base itself supplies neither. -/
structure Solo8Variant where
  supplies_load_bodies : Bool
  supplies_reset : Bool
deriving DecidableEq, Repr

/-- Modelled from the spec: `Solo8BaseEnv` itself, viewed as the variant
that supplies neither abstract operation. -/
def Solo8BaseEnv.abstractBase : Solo8Variant :=
  { supplies_load_bodies := false, supplies_reset := false }

/-- Modelled from the spec: constructing an environment (spec §4.4).
Instantiating a variant that misses an abstract operation fails at
construction time (`TypeError`, per `test_abstract_init`); otherwise
construction opens the session and emits exactly the hook calls
`load_bodies()` then `reset(from_init=True)`, returned as the ordered
event trace of the constructor. -/
def Solo8BaseEnv.construct (v : Solo8Variant) :
    Except String (List LifeEvent) :=
  if v.supplies_load_bodies && v.supplies_reset then
    Except.ok [LifeEvent.loadBodies, LifeEvent.resetEv true]
  else
    Except.error "TypeError: abstract operations not implemented"

/-- Modelled from the spec: the process-wide pseudo-random state `_seed`
resets (spec §4.4, §9) — one general-purpose generator (`random`) and one
numeric-array generator (`numpy.random`), each an explicit seedable
generator object. -/
structure RandomState where
  general : Nat
  numeric : Nat
deriving DecidableEq, Repr

/-- Modelled from the spec: one step of a concrete linear-congruential
generator standing in for each opaque pseudo-random source
(modulus `2^31`). -/
def lcgNext (s : Nat) : Nat := (1103515245 * s + 12345) % 2147483648

/-- `n`-fold iteration of `lcgNext`; the first `n` draws from a source are
`iterLcg 1 s, iterLcg 2 s, …`. -/
def iterLcg : Nat → Nat → Nat
  | 0, s => s
  | n + 1, s => iterLcg n (lcgNext s)

/-- Modelled from the spec: `Solo8BaseEnv._seed(seed)` "deterministically
reseeds every pseudo-random number source the process depends on"
(spec §4.4): both generator states are overwritten with values derived
from `seed` alone — the prior state is discarded entirely. -/
def Solo8BaseEnv.seed (_st : RandomState) (seed : Nat) : RandomState :=
  { general := lcgNext seed, numeric := lcgNext (lcgNext seed) }

/-- The value of the `(n+1)`-th draw from the general-purpose generator
after state `st` (zero-indexed `n`). -/
def RandomState.generalDraw (st : RandomState) (n : Nat) : Nat :=
  iterLcg (n + 1) st.general

/-- The value of the `(n+1)`-th draw from the numeric-array generator
after state `st` (zero-indexed `n`). -/
def RandomState.numericDraw (st : RandomState) (n : Nat) : Nat :=
  iterLcg (n + 1) st.numeric

/-- Registration succeeds (raises nothing) exactly when the label count
agrees with both the space-bound count and the computed-vector length. -/
theorem register_success_iff (f : ObservationFactory) (obs : Observation) :
    (f.register_observation obs).2.2 = none ↔
      (obs.labels.length = obs.observation_space.low.length ∧
       obs.labels.length = obs.compute.length) := by
  unfold ObservationFactory.register_observation
  dsimp only
  split_ifs with h1 h2 <;> simp <;> tauto

/-- The observation handed to `register_observation` always comes back with
its client bound to the factory's backend client, whether or not the
call raised. -/
theorem register_binds_client (f : ObservationFactory) (obs : Observation) :
    (f.register_observation obs).1 = { obs with _client := some f._client } := by
  unfold ObservationFactory.register_observation
  dsimp only
  split_ifs <;> rfl

/-- On success the factory state is exactly the old one with the
client-bound observation appended. -/
theorem register_success_factory (f : ObservationFactory) (obs : Observation)
    (h : (f.register_observation obs).2.2 = none) :
    (f.register_observation obs).2.1 =
      { f with _observations :=
          f._observations ++ [{ obs with _client := some f._client }] } := by
  unfold ObservationFactory.register_observation at h ⊢
  dsimp only at h ⊢
  split_ifs at h ⊢
  rfl

/-- On failure the factory state is unchanged. -/
theorem register_failure_factory (f : ObservationFactory) (obs : Observation)
    (h : (f.register_observation obs).2.2 ≠ none) :
    (f.register_observation obs).2.1 = f := by
  unfold ObservationFactory.register_observation at h ⊢
  dsimp only at h ⊢
  split_ifs at h ⊢ <;> first | rfl | simp at h

/-- Claim C2: `register_observation` raises exactly when some two of
{label count, space-bound count, computed-vector length} disagree —
every pairwise mismatch combination raises — and succeeds exactly when
all three agree, in which case the observation is appended unmodified
(same labels, bounds and computed vector: nothing truncated or
padded). -/
theorem register_observation_validates (f : ObservationFactory)
    (obs : Observation) :
    ((f.register_observation obs).2.2 ≠ none ↔
      (obs.labels.length ≠ obs.observation_space.low.length ∨
       obs.labels.length ≠ obs.compute.length ∨
       obs.observation_space.low.length ≠ obs.compute.length)) ∧
    ((f.register_observation obs).2.2 = none →
      (f.register_observation obs).2.1._observations =
        f._observations ++ [{ obs with _client := some f._client }]) := by
  constructor
  · rw [Ne, register_success_iff]
    omega
  · intro hok
    rw [register_success_factory f obs hok]

/-- A valid observation used by several witnesses: one label, one bound
pair, a one-entry computed vector. -/
def obsGood : Observation :=
  { labels := ["a"], observation_space := { low := [0], high := [1] },
    compute := [5], _client := none }

/-- An invalid observation: two labels against one bound pair and a
one-entry computed vector. -/
def obsBad : Observation :=
  { labels := ["a", "b"], observation_space := { low := [0], high := [1] },
    compute := [5], _client := none }

/-- Witness for claim C2 at a concrete factory and observation. -/
theorem register_observation_validates_witness :
    ((ObservationFactory.new 0).register_observation obsGood).2.1._observations
      = [{ obsGood with _client := some 0 }] := by
  have h := register_observation_validates (ObservationFactory.new 0) obsGood
  rw [h.2 (by rfl)]
  rfl

/-- Claim C10: when `register_observation` fails validation and raises, the
factory's own state is unchanged (the observation is not appended), but
the passed observation has already been mutated — its client attribute
was bound to the factory's backend client before validation ran, and the
binding persists after the exception. -/
theorem register_failure_mutates_observation (f : ObservationFactory)
    (obs : Observation) (h : (f.register_observation obs).2.2 ≠ none) :
    (f.register_observation obs).2.1 = f ∧
    (f.register_observation obs).1 = { obs with _client := some f._client } ∧
    (f.register_observation obs).1._client = some f._client :=
  ⟨register_failure_factory f obs h, register_binds_client f obs,
    by rw [register_binds_client f obs]⟩

/-- Witness for claim C10: registering the mismatched `obsBad` raises,
leaves the factory as constructed, yet has bound the client onto the
observation. -/
theorem register_failure_mutates_observation_witness :
    ((ObservationFactory.new 7).register_observation obsBad).2.2 ≠ none ∧
    ((ObservationFactory.new 7).register_observation obsBad).2.1 =
      ObservationFactory.new 7 ∧
    ((ObservationFactory.new 7).register_observation obsBad).1._client =
      some 7 := by
  have h := register_failure_mutates_observation (ObservationFactory.new 7)
    obsBad (by decide)
  exact ⟨by decide, h.1, h.2.2⟩

/-- When the registry is non-empty and a combined space is cached,
`get_observation_space(regenerate=False)` returns the cache and leaves
the factory untouched. -/
theorem get_observation_space_cached (f : ObservationFactory) (sp : Box)
    (hne : f._observations ≠ []) (hsp : f._obs_space = some sp) :
    f.get_observation_space false = Except.ok (sp, f) := by
  unfold ObservationFactory.get_observation_space
  rw [hsp]
  simp [List.isEmpty_iff, hne]

/-- When the registry is non-empty, `get_observation_space(regenerate=True)`
rebuilds the combined space from every registered observation and
replaces the cache, whatever the previous cache was. -/
theorem get_observation_space_generate (f : ObservationFactory)
    (hne : f._observations ≠ []) :
    f.get_observation_space true =
      Except.ok (f.build_space, { f with _obs_space := some f.build_space }) := by
  unfold ObservationFactory.get_observation_space
  rcases h : f._obs_space with _ | sp <;> simp [List.isEmpty_iff, hne]

/-- Claim C1 (amended): a successful `register_observation(obs)` appends
`obs` (client bound) to the registration sequence but does NOT invalidate
a previously cached combined space — the source never touches
`_obs_space` — so a subsequent `get_observation_space(regenerate=False)`
returns the stale pre-registration cache; the bounds of the newly
registered observation only appear after `regenerate=True` (or when no
cache existed yet). -/
theorem register_appends_keeps_stale_cache (f : ObservationFactory)
    (obs : Observation) (hok : (f.register_observation obs).2.2 = none) :
    (f.register_observation obs).2.1._observations =
      f._observations ++ [{ obs with _client := some f._client }] ∧
    (f.register_observation obs).2.1._obs_space = f._obs_space ∧
    (∀ sp : Box, f._obs_space = some sp →
      (f.register_observation obs).2.1.get_observation_space false =
        Except.ok (sp, (f.register_observation obs).2.1)) ∧
    (f.register_observation obs).2.1.get_observation_space true =
      Except.ok ((f.register_observation obs).2.1.build_space,
        { (f.register_observation obs).2.1 with
            _obs_space := some ((f.register_observation obs).2.1.build_space) }) := by
  rw [register_success_factory f obs hok]
  refine ⟨rfl, rfl, ?_, ?_⟩
  · intro sp hsp
    exact get_observation_space_cached _ sp (by simp) hsp
  · exact get_observation_space_generate _ (by simp)

/-- Second scenario observation for the C1 counterexample: one label
`"b"`, bounds `[2]`/`[3]`, computed vector `[7]`. -/
def obsB : Observation :=
  { labels := ["b"], observation_space := { low := [2], high := [3] },
    compute := [7], _client := none }

/-- Factory state after registering `obsGood` on a fresh factory. -/
def facAfterA : ObservationFactory :=
  ((ObservationFactory.new 0).register_observation obsGood).2.1

/-- Factory state after additionally caching the combined space via
`get_observation_space(regenerate=False)`. -/
def facCachedA : ObservationFactory :=
  match facAfterA.get_observation_space false with
  | Except.ok (_, f') => f'
  | Except.error _ => facAfterA

/-- Factory state after then registering `obsB`. -/
def facAfterB : ObservationFactory :=
  (facCachedA.register_observation obsB).2.1

/-- Counterexample to claim C1 as stated: after caching the combined space
and then successfully registering a second observation,
`get_observation_space(regenerate=False)` still returns the stale
one-dimensional pre-registration cache `low=[0], high=[1]`, not a space
covering both registered observations (whose combined bounds are
`low=[0,2], high=[1,3]`) — the cache was not invalidated. -/
theorem register_observation_stale_cache_cex :
    (facCachedA.register_observation obsB).2.2 = none ∧
    facAfterB._observations.length = 2 ∧
    facAfterB.build_space = { low := [0, 2], high := [1, 3] } ∧
    facAfterB.get_observation_space false =
      Except.ok ({ low := [0], high := [1] }, facAfterB) ∧
    ({ low := [0], high := [1] } : Box) ≠ facAfterB.build_space :=
  ⟨rfl, rfl, rfl, rfl, by decide⟩

/-- Witness for the amended claim C1 at the counterexample scenario. -/
theorem register_appends_keeps_stale_cache_witness :
    (facCachedA.register_observation obsB).2.2 = none ∧
    facAfterB.get_observation_space false =
      Except.ok ({ low := [0], high := [1] }, facAfterB) := by
  have h := register_appends_keeps_stale_cache facCachedA obsB (by rfl)
  exact ⟨rfl, h.2.2.1 { low := [0], high := [1] } (by rfl)⟩

/-- Claim C3: on a factory whose registered observations each satisfy the
validated invariant (label count = computed length — exactly what
`register_observation` enforced), a non-empty registry makes `get_obs`
return the concatenation, in registration order, of every observation's
computed vector and, in lock-step, of their label lists, with
`len(vector) = len(labels) = sum of each observation's own length`. -/
theorem get_obs_shape (f : ObservationFactory)
    (hv : ∀ o ∈ f._observations, o.labels.length = o.compute.length)
    (hne : f._observations ≠ []) :
    f.get_obs = Except.ok
      ((f._observations.map (fun o => o.compute)).flatten,
       (f._observations.map (fun o => o.labels)).flatten) ∧
    (f._observations.map (fun o => o.compute)).flatten.length =
      (f._observations.map (fun o => o.labels)).flatten.length ∧
    (f._observations.map (fun o => o.labels)).flatten.length =
      (f._observations.map (fun o => o.labels.length)).sum := by
  refine ⟨?_, ?_, ?_⟩
  · unfold ObservationFactory.get_obs
    simp [List.isEmpty_iff, hne]
  · rw [List.length_flatten, List.length_flatten, List.map_map, List.map_map]
    exact congrArg List.sum
      (List.map_congr_left (fun o ho => (hv o ho).symm))
  · rw [List.length_flatten, List.map_map]
    rfl

/-- A two-observation factory used as the C3 witness: total length 3. -/
def facW : ObservationFactory :=
  { _client := 0,
    _observations :=
      [{ labels := ["a"], observation_space := { low := [0], high := [1] },
         compute := [5], _client := some 0 },
       { labels := ["b", "c"],
         observation_space := { low := [2, 4], high := [3, 6] },
         compute := [7, 8], _client := some 0 }],
    _obs_space := none }

/-- Witness for claim C3 at a concrete two-observation factory. -/
theorem get_obs_shape_witness :
    (∀ o ∈ facW._observations, o.labels.length = o.compute.length) ∧
    facW._observations ≠ [] ∧
    facW.get_obs = Except.ok ([5, 7, 8], ["a", "b", "c"]) ∧
    (facW._observations.map (fun o => o.labels.length)).sum = 3 := by
  have h := get_obs_shape facW (by decide) (by decide)
  exact ⟨by decide, by decide, by rw [h.1]; rfl, by decide⟩

/-- Claim C4: `get_obs()` and `get_observation_space()` (either
`regenerate` value) on an `ObservationFactory` with zero registered
observations, and `get_reward()` on a `RewardFactory` with zero
registered rewards, all raise rather than returning an empty result. -/
theorem empty_registry_raises (f : ObservationFactory) (rf : RewardFactory)
    (g : Bool) (hf : f._observations = []) (hr : rf._rewards = []) :
    f.get_obs =
      Except.error "Need to register at least one observation instance" ∧
    f.get_observation_space g =
      Except.error "Can not generate an empty observation space" ∧
    rf.get_reward =
      Except.error "Need to register at least one reward instance" := by
  unfold ObservationFactory.get_obs ObservationFactory.get_observation_space
    RewardFactory.get_reward
  simp [hf, hr]

/-- Witness for claim C4 at freshly constructed factories. -/
theorem empty_registry_raises_witness :
    (ObservationFactory.new 0)._observations = [] ∧
    RewardFactory.new._rewards = [] ∧
    (ObservationFactory.new 0).get_obs =
      Except.error "Need to register at least one observation instance" ∧
    (ObservationFactory.new 0).get_observation_space false =
      Except.error "Can not generate an empty observation space" ∧
    RewardFactory.new.get_reward =
      Except.error "Need to register at least one reward instance" := by
  have h := empty_registry_raises (ObservationFactory.new 0) RewardFactory.new
    false rfl rfl
  exact ⟨rfl, rfl, h.1, h.2.1, h.2.2⟩

/-- The generator-expression sum of `get_reward` as an indexed sum over the
registration sequence. -/
theorem sum_map_weighted (l : List _WeightedReward) :
    (l.map (fun wr => wr.weight * wr.reward.compute)).sum =
      ∑ i : Fin l.length, (l.get i).weight * (l.get i).reward.compute := by
  induction l with
  | nil => simp
  | cons a t ih => simp [Fin.sum_univ_succ, ih]

/-- Claim C5: with a non-empty registry, `get_reward()` returns exactly the
sum over all registered pairs of `weight * reward.compute()` — a pure
weighted linear combination over the registration sequence, with no
normalization, clipping or weight-sum constraint (weights, negative ones
included, enter the sum untouched). -/
theorem get_reward_weighted_sum (f : RewardFactory)
    (h : f._rewards ≠ []) :
    f.get_reward = Except.ok (∑ i : Fin f._rewards.length,
      (f._rewards.get i).weight * (f._rewards.get i).reward.compute) := by
  unfold RewardFactory.get_reward
  rw [← sum_map_weighted]
  simp [List.isEmpty_iff, h]

/-- The reward registry of the C5 witness: weights `[1, -2]` against
rewards computing to `[3, 1]`. -/
def rfEx : RewardFactory :=
  (RewardFactory.new.register_reward 1 { compute := 3 }).register_reward
    (-2) { compute := 1 }

/-- Witness for claim C5: weights `[1.0, -2.0]` with rewards computing to
`[3.0, 1.0]` yield exactly `1.0` — the negative weight acts as a
penalty. -/
theorem get_reward_weighted_sum_witness :
    rfEx._rewards ≠ [] ∧ rfEx.get_reward = Except.ok 1 := by
  have h := get_reward_weighted_sum rfEx (by decide)
  refine ⟨by decide, ?_⟩
  rw [h, ← sum_map_weighted]
  show Except.ok ((1 : Rat) * 3 + ((-2) * 1 + 0)) = Except.ok 1
  norm_num

/-- After `n` calls on a fresh `TimeBasedTermination`, the threshold is
untouched and the counter equals `n`. -/
theorem timeBased_afterCalls_state (m n : Nat) :
    (TimeBasedTermination.new m).afterCalls n =
      { max_step_delta := m, step_delta := n } := by
  induction n with
  | zero => rfl
  | succ k ih =>
    simp [TimeBasedTermination.afterCalls, ih,
      TimeBasedTermination.is_terminated]

/-- Claim C6: on a fresh `TimeBasedTermination` with threshold `N`, each of
the first `N` `is_terminated()` calls returns false and increments
`step_delta` by one (leaving it at `N` after the `N`-th call); the
`(N+1)`-th call returns true with `step_delta = N+1`; and `reset()`
restores `step_delta` to 0, i.e. yields exactly the freshly constructed
state, so subsequent calls behave as on a fresh instance. -/
theorem timeBased_termination_behaviour (N k : Nat) (hk : k < N) :
    (TimeBasedTermination.new N).callResult k = false ∧
    ((TimeBasedTermination.new N).afterCalls (k + 1)).step_delta = k + 1 ∧
    ((TimeBasedTermination.new N).afterCalls N).step_delta = N ∧
    (TimeBasedTermination.new N).callResult N = true ∧
    ((TimeBasedTermination.new N).afterCalls (N + 1)).step_delta = N + 1 ∧
    (∀ t : TimeBasedTermination, t.max_step_delta = N →
      t.reset = TimeBasedTermination.new N) := by
  refine ⟨?_, ?_, ?_, ?_, ?_, ?_⟩
  · simp [TimeBasedTermination.callResult, timeBased_afterCalls_state,
      TimeBasedTermination.is_terminated]
    omega
  · simp [timeBased_afterCalls_state]
  · simp [timeBased_afterCalls_state]
  · simp [TimeBasedTermination.callResult, timeBased_afterCalls_state,
      TimeBasedTermination.is_terminated]
  · simp [timeBased_afterCalls_state]
  · intro t ht
    simp [TimeBasedTermination.reset, TimeBasedTermination.new, ht]

/-- Witness for claim C6 at the tests' threshold `max_step_delta = 3`. -/
theorem timeBased_termination_behaviour_witness :
    (0 < 3) ∧
    (TimeBasedTermination.new 3).callResult 0 = false ∧
    ((TimeBasedTermination.new 3).afterCalls 3).step_delta = 3 ∧
    (TimeBasedTermination.new 3).callResult 3 = true ∧
    ((TimeBasedTermination.new 3).afterCalls 4).step_delta = 4 := by
  have h := timeBased_termination_behaviour 3 0 (by decide)
  exact ⟨by decide, h.1, h.2.2.1, h.2.2.2.1, h.2.2.2.2.1⟩

/-- Claim C7: `PerpetualTermination.is_terminated()` returns false on every
call, whatever the number of preceding calls. -/
theorem perpetual_termination_never_terminates (t : PerpetualTermination)
    (n : Nat) : t.callResult n = false :=
  rfl

/-- Claim C8: constructing the abstract base environment type directly
fails at construction time, while constructing a concrete variant
supplying `load_bodies` and `reset` succeeds, and the construction trace
invokes `load_bodies` exactly once and `reset(from_init=True)` exactly
once, with no `step` before or among them. -/
theorem solo8_base_env_construction (v : Solo8Variant)
    (hl : v.supplies_load_bodies = true) (hr : v.supplies_reset = true) :
    Solo8BaseEnv.construct Solo8BaseEnv.abstractBase =
      Except.error "TypeError: abstract operations not implemented" ∧
    Solo8BaseEnv.construct v =
      Except.ok [LifeEvent.loadBodies, LifeEvent.resetEv true] ∧
    [LifeEvent.loadBodies, LifeEvent.resetEv true].count
      LifeEvent.loadBodies = 1 ∧
    [LifeEvent.loadBodies, LifeEvent.resetEv true].count
      (LifeEvent.resetEv true) = 1 ∧
    LifeEvent.stepEv ∉ [LifeEvent.loadBodies, LifeEvent.resetEv true] := by
  refine ⟨rfl, ?_, by decide, by decide, by decide⟩
  unfold Solo8BaseEnv.construct
  rw [hl, hr]
  rfl

/-- The concrete test variant (`SimpleSoloEnv` in the tests): both hooks
supplied. -/
def simpleSoloVariant : Solo8Variant :=
  { supplies_load_bodies := true, supplies_reset := true }

/-- Witness for claim C8 at a variant supplying both hooks. -/
theorem solo8_base_env_construction_witness :
    Solo8BaseEnv.construct simpleSoloVariant =
      Except.ok [LifeEvent.loadBodies, LifeEvent.resetEv true] ∧
    Solo8BaseEnv.construct Solo8BaseEnv.abstractBase =
      Except.error "TypeError: abstract operations not implemented" := by
  have h := solo8_base_env_construction simpleSoloVariant rfl rfl
  exact ⟨h.2.1, h.1⟩

/-- One generator step stays below the modulus. -/
theorem lcgNext_lt (s : Nat) : lcgNext s < 2147483648 :=
  Nat.mod_lt _ (by norm_num)

/-- One generator step is injective on seeds below the modulus: the
multiplier is odd, hence coprime to `2^31`. -/
theorem lcgNext_inj (s1 s2 : Nat) (h1 : s1 < 2147483648)
    (h2 : s2 < 2147483648) (hne : s1 ≠ s2) : lcgNext s1 ≠ lcgNext s2 := by
  intro heq
  have hme : 1103515245 * s1 + 12345 ≡ 1103515245 * s2 + 12345
      [MOD 2147483648] := heq
  have hme2 : 1103515245 * s1 ≡ 1103515245 * s2 [MOD 2147483648] :=
    Nat.ModEq.add_right_cancel' 12345 hme
  have hcop : Nat.gcd 2147483648 1103515245 = 1 := by norm_num
  have hmod : s1 ≡ s2 [MOD 2147483648] :=
    Nat.ModEq.cancel_left_of_coprime hcop hme2
  have : s1 % 2147483648 = s2 % 2147483648 := hmod
  rw [Nat.mod_eq_of_lt h1, Nat.mod_eq_of_lt h2] at this
  exact hne this

/-- Iterating the generator preserves the modulus bound (for seeds already
below it). -/
theorem iterLcg_lt (n s : Nat) (h : s < 2147483648) :
    iterLcg n s < 2147483648 := by
  induction n generalizing s with
  | zero => exact h
  | succ k ih => exact ih (lcgNext s) (lcgNext_lt s)

/-- Distinct sub-modulus states stay distinct under any number of
generator steps. -/
theorem iterLcg_inj (n s1 s2 : Nat) (h1 : s1 < 2147483648)
    (h2 : s2 < 2147483648) (hne : s1 ≠ s2) :
    iterLcg n s1 ≠ iterLcg n s2 := by
  induction n generalizing s1 s2 with
  | zero => exact hne
  | succ k ih =>
    exact ih (lcgNext s1) (lcgNext s2) (lcgNext_lt s1) (lcgNext_lt s2)
      (lcgNext_inj s1 s2 h1 h2 hne)

/-- Claim C9: `_seed(seed)` reseeds both consumed pseudo-random sources
(the general-purpose and the numeric-array generator) from the seed
alone: whatever states two runs were in before, reseeding them with the
same seed value leaves identical generator states, hence identical
subsequent draws from every source; reseeding with two different
(sub-modulus) seed values makes every subsequent draw of both sources
differ. -/
theorem seed_reproducibility (st1 st2 : RandomState) (s s1 s2 n : Nat)
    (hb1 : s1 < 2147483648) (hb2 : s2 < 2147483648) (hne : s1 ≠ s2) :
    Solo8BaseEnv.seed st1 s = Solo8BaseEnv.seed st2 s ∧
    (Solo8BaseEnv.seed st1 s).generalDraw n =
      (Solo8BaseEnv.seed st2 s).generalDraw n ∧
    (Solo8BaseEnv.seed st1 s).numericDraw n =
      (Solo8BaseEnv.seed st2 s).numericDraw n ∧
    (Solo8BaseEnv.seed st1 s1).generalDraw n ≠
      (Solo8BaseEnv.seed st2 s2).generalDraw n ∧
    (Solo8BaseEnv.seed st1 s1).numericDraw n ≠
      (Solo8BaseEnv.seed st2 s2).numericDraw n := by
  refine ⟨rfl, rfl, rfl, ?_, ?_⟩
  · exact iterLcg_inj (n + 1) _ _ (lcgNext_lt s1) (lcgNext_lt s2)
      (lcgNext_inj s1 s2 hb1 hb2 hne)
  · exact iterLcg_inj (n + 1) _ _ (lcgNext_lt (lcgNext s1))
      (lcgNext_lt (lcgNext s2))
      (lcgNext_inj (lcgNext s1) (lcgNext s2) (lcgNext_lt s1) (lcgNext_lt s2)
        (lcgNext_inj s1 s2 hb1 hb2 hne))

/-- Witness for claim C9 at the tests' seed 69 (against 70), with two
different prior generator states. -/
theorem seed_reproducibility_witness :
    (69 : Nat) < 2147483648 ∧ (70 : Nat) < 2147483648 ∧ (69 : Nat) ≠ 70 ∧
    Solo8BaseEnv.seed { general := 0, numeric := 0 } 69 =
      Solo8BaseEnv.seed { general := 5, numeric := 7 } 69 ∧
    (Solo8BaseEnv.seed { general := 0, numeric := 0 } 69).generalDraw 0 ≠
      (Solo8BaseEnv.seed { general := 5, numeric := 7 } 70).generalDraw 0 := by
  have h := seed_reproducibility { general := 0, numeric := 0 }
    { general := 5, numeric := 7 } 69 69 70 0 (by norm_num) (by norm_num)
    (by norm_num)
  exact ⟨by norm_num, by norm_num, by norm_num, h.1, h.2.2.2.1⟩
